import Mathlib

/-!
Verification of the Libview backend (`src/backend/app/api.py`) against its
natural-language specification.  The Python functions relevant to the frozen
claims are shallowly embedded as executable Lean definitions over `List Char`
(Python `str` values); fallible Python code is embedded with `Option`/`Except`.
ASCII semantics are used for the character classes (`\w`, `\s`, `str.lower`),
which matches every input under consideration.
-/

namespace Libview

/-! ## Python string primitives -/

/-- Python whitespace characters (ASCII fragment of `str.isspace`, which is
also the character class `\s` used by the regexes in `api.py`). -/
def pyIsSpace (c : Char) : Bool :=
  c == ' ' || c == '\t' || c == '\n' || c == '\r' || c == '\x0b' || c == '\x0c'

/-- Regex word characters `\w` (ASCII fragment): letters, digits, underscore. -/
def isWordChar (c : Char) : Bool :=
  c.isAlpha || c.isDigit || c == '_'

/-- `len(line) - len(line.lstrip())`: the number of leading whitespace chars. -/
def pyLstripLen (l : List Char) : Nat :=
  (l.takeWhile pyIsSpace).length

/-- Python `str.strip()`: remove leading and trailing whitespace. -/
def pyStrip (l : List Char) : List Char :=
  ((l.dropWhile pyIsSpace).reverse.dropWhile pyIsSpace).reverse

/-- Python `str.lower()` (ASCII). -/
def pyLower (l : List Char) : List Char :=
  l.map Char.toLower

/-- Python `name.startswith('_')`: the privacy-marker test used by
`get_library_info` (character-level, since the marker is one character). -/
def startsWithUnderscore (s : String) : Bool :=
  match s.data with
  | [] => false
  | c :: _ => c == '_'

/-- Helper for `pyFind`: scan suffixes left to right, tracking the index. -/
def pyFindAux (pat : List Char) : List Char → Nat → Option Nat
  | [], i => if pat.isPrefixOf ([] : List Char) then some i else none
  | c :: r, i => if pat.isPrefixOf (c :: r) then some i else pyFindAux pat r (i + 1)

/-- Python `str.find`: index of the leftmost occurrence of `pat` in `s`
(`none` models the return value `-1`). -/
def pyFind (pat s : List Char) : Option Nat :=
  pyFindAux pat s 0

/-- Python `pat in s` (substring containment). -/
def containsSub (s pat : List Char) : Bool :=
  (pyFind pat s).isSome

/-- Python `sep.join(pieces)`. -/
def joinSep (sep : List Char) : List (List Char) → List Char
  | [] => []
  | [x] => x
  | x :: y :: xs => x ++ sep ++ joinSep sep (y :: xs)

/-- Split on `'\n'` only, keeping empty pieces (the raw line structure that the
`[^\n]` based regexes of `extract_code_blocks` operate on). -/
def splitOnNl : List Char → List (List Char)
  | [] => [[]]
  | c :: rest =>
    if c = '\n' then [] :: splitOnNl rest
    else
      match splitOnNl rest with
      | [] => [[c]]
      | p :: ps => (c :: p) :: ps

/-- Worker for `pySplitlines`; `acc` holds the current line reversed. -/
def splitlinesGo : List Char → List Char → List (List Char)
  | [], acc => [acc.reverse]
  | '\r' :: '\n' :: rest, acc =>
    if rest.isEmpty then [acc.reverse] else acc.reverse :: splitlinesGo rest []
  | '\r' :: rest, acc =>
    if rest.isEmpty then [acc.reverse] else acc.reverse :: splitlinesGo rest []
  | '\n' :: rest, acc =>
    if rest.isEmpty then [acc.reverse] else acc.reverse :: splitlinesGo rest []
  | c :: rest, acc => splitlinesGo rest (c :: acc)

/-- Python `str.splitlines()` (for the terminators `\n`, `\r`, `\r\n`): no
trailing empty line is produced for a trailing terminator. -/
def pySplitlines (l : List Char) : List (List Char) :=
  if l.isEmpty then [] else splitlinesGo l []

/-! ## Generic drivers for `re.sub` and `re.findall`

A matcher `try_ s` attempts a regex match anchored at the start of `s` and
returns the replacement/capture together with the rest of the input after the
match.  The drivers scan left to right exactly as the `re` module does:
attempt a match at each position, emit and resume after a successful match,
otherwise advance one character.  Every matcher below consumes at least one
character on success, so fuel `s.length` is always sufficient. -/

/-- Fuel-driven global substitution (the semantics of `re.sub`). -/
def substFuel (try_ : List Char → Option (List Char × List Char)) :
    Nat → List Char → List Char
  | 0, s => s
  | fuel + 1, s =>
    match try_ s with
    | some (rep, rest) => rep ++ substFuel try_ fuel rest
    | none =>
      match s with
      | [] => []
      | c :: t => c :: substFuel try_ fuel t

/-- `re.sub(pattern, repl, s)` for the matcher `try_`. -/
def substG (try_ : List Char → Option (List Char × List Char)) (s : List Char) :
    List Char :=
  substFuel try_ s.length s

/-- Fuel-driven scan collecting all captures (the semantics of `re.findall`). -/
def findAllFuel (try_ : List Char → Option (List Char × List Char)) :
    Nat → List Char → List (List Char)
  | 0, _ => []
  | fuel + 1, s =>
    match try_ s with
    | some (cap, rest) => cap :: findAllFuel try_ fuel rest
    | none =>
      match s with
      | [] => []
      | _ :: t => findAllFuel try_ fuel t

/-- `re.findall(pattern, s)` for the matcher `try_`. -/
def findAll (try_ : List Char → Option (List Char × List Char)) (s : List Char) :
    List (List Char) :=
  findAllFuel try_ s.length s

/-! ## `format_docstring` (api.py lines 37-65)

Each `re.sub` call of the Python function becomes one matcher.  `.` does not
match `'\n'` (no `re.DOTALL` is passed), `\w+`/`\S+` are greedy over classes
disjoint from what follows, and `\s*\n\n` backtracks greedily inside the
whitespace run. -/

/-- Literal core of `r'.. code-block:: (\w+)\s*\n\n'`. -/
def cbLit : List Char := " code-block:: ".data

/-- Literal core of `r'.. versionchanged:: (\S+)\s+'`. -/
def vcLit : List Char := " versionchanged:: ".data

/-- Literal core of `r'.. versionadded:: (\S+)\s+'`. -/
def vaLit : List Char := " versionadded:: ".data

/-- Literal core of `r'.. deprecated:: (\S+)\s+'`. -/
def vdLit : List Char := " deprecated:: ".data

/-- Matcher for `r'.. code-block:: (\w+)\s*\n\n'` with replacement
`'\nCode example:\n\n'`.  The two leading `.` match any non-newline
characters; after the greedy `\w+`, `\s*\n\n` matches up to the last `"\n\n"`
pair inside the following whitespace run. -/
def tryCodeBlock (s : List Char) : Option (List Char × List Char) :=
  match s with
  | a :: b :: rest =>
    if a != '\n' && b != '\n' && cbLit.isPrefixOf rest then
      let t := rest.drop cbLit.length
      let cap := t.takeWhile isWordChar
      if cap.isEmpty then none
      else
        let u := t.drop cap.length
        let w := u.takeWhile pyIsSpace
        (List.range (w.length - 1)).reverse.findSome? fun k =>
          if w.getD k ' ' == '\n' && w.getD (k + 1) ' ' == '\n' then
            some ("\nCode example:\n\n".data, u.drop (k + 2))
          else none
    else none
  | _ => none

/-- Core of the cross-reference matchers: after the opening literal, a greedy
`[^`]+` capture followed by a closing backtick. -/
def refBody (u : List Char) : Option (List Char × List Char) :=
  let content := u.takeWhile (fun c => c != '`')
  if content.isEmpty then none
  else
    match u.drop content.length with
    | '`' :: rest2 => some (content, rest2)
    | _ => none

/-- Matcher for `r':NAME:`~?([^`]+)`'` (replacement: the capture).  When
`allowTilde` is set, a leading `~` is consumed greedily and given back on
failure, exactly as the optional `~?` backtracks. -/
def tryRef (lit : List Char) (allowTilde : Bool) (s : List Char) :
    Option (List Char × List Char) :=
  if lit.isPrefixOf s then
    let t := s.drop lit.length
    match t with
    | '~' :: t2 =>
      if allowTilde then
        match refBody t2 with
        | some r => some r
        | none => refBody t
      else refBody t
    | _ => refBody t
  else none

/-- Matcher for the version directives `r'.. LIT (\S+)\s+'` with replacement
`pre ++ capture ++ "]: "`. -/
def tryVersion (lit pre : List Char) (s : List Char) :
    Option (List Char × List Char) :=
  match s with
  | a :: b :: rest =>
    if a != '\n' && b != '\n' && lit.isPrefixOf rest then
      let t := rest.drop lit.length
      let cap := t.takeWhile (fun c => !pyIsSpace c)
      if cap.isEmpty then none
      else
        let u := t.drop cap.length
        let w := u.takeWhile pyIsSpace
        if w.isEmpty then none
        else some (pre ++ cap ++ "]: ".data, u.drop w.length)
    else none
  | _ => none

/-- Matcher for `r'\n{3,}'` with replacement `'\n\n'`. -/
def tryCollapse (s : List Char) : Option (List Char × List Char) :=
  let r := s.takeWhile (fun c => c == '\n')
  if 3 ≤ r.length then some ("\n\n".data, s.drop r.length) else none

/-- `format_docstring` (api.py lines 37-65) over raw character lists: the
empty-input guard, the ten `re.sub` passes in source order, and the final
`strip()`. -/
def format_docstring_list (l : List Char) : List Char :=
  if l.isEmpty then "No documentation available".data
  else
    let f := substG tryCodeBlock l
    let f := substG (tryRef ":class:`".data true) f
    let f := substG (tryRef ":func:`".data true) f
    let f := substG (tryRef ":mimetype:`".data false) f
    let f := substG (tryRef ":data:`".data false) f
    let f := substG (tryRef ":ref:`".data false) f
    let f := substG (tryVersion vcLit "\n[Changed in version ".data) f
    let f := substG (tryVersion vaLit "\n[Added in version ".data) f
    let f := substG (tryVersion vdLit "\n[Deprecated in version ".data) f
    let f := substG tryCollapse f
    pyStrip f

/-- `format_docstring` on Lean strings. -/
def format_docstring (s : String) : String :=
  (format_docstring_list s.data).asString

/-! ## Relevance scoring in `search_pypi` (api.py lines 428-436 and 484-492) -/

/-- The relevance score computed for a search result: 100 on a case-insensitive
exact match, `90 - min(position, 80)` when the (already lowercased) query is a
substring of the lowercased name at first occurrence `position`, and 50
otherwise.  Python's `query in name` test and `name.find(query)` are folded
into the single `pyFind` match. -/
def relevance (query name : String) : Nat :=
  let ql := pyLower query.data
  let nl := pyLower name.data
  if ql = nl then 100
  else
    match pyFind ql nl with
    | some position => 90 - min position 80
    | none => 50

/-! ## `extract_code_blocks` (api.py lines 830-871)

The function runs three extraction passes over the docstring: fenced
```` ```python ```` blocks, interactive `>>>` prompt blocks, and indented
blocks.  The indented pass computes
`min(len(line) - len(line.lstrip()) for line in lines if line.strip())`,
which raises `ValueError` when the filtered generator is empty, so the
embedding returns `Except String (List String)` with `.error` marking a
raised exception. -/

/-- Matcher for `re.findall(r'```python\s+(.*?)\s+```', s, re.DOTALL)`:
after the opening literal, a greedy `\s+`, a lazy capture (DOTALL, so it may
contain anything), a greedy `\s+`, and the closing literal, tried in the
backtracking order of the `re` engine (first `\s+` longest first, capture
shortest first, second `\s+` longest first). -/
def tryFencedPython (s : List Char) : Option (List Char × List Char) :=
  if "```python".data.isPrefixOf s then
    let t := s.drop 9
    let w := (t.takeWhile pyIsSpace).length
    ((List.range w).reverse.map (· + 1)).findSome? fun k1 =>
      let u := t.drop k1
      (List.range (u.length + 1)).findSome? fun k2 =>
        let mid := u.take k2
        let v := u.drop k2
        let w2 := (v.takeWhile pyIsSpace).length
        ((List.range w2).reverse.map (· + 1)).findSome? fun j =>
          if "```".data.isPrefixOf (v.drop j) then some (mid, (v.drop j).drop 3)
          else none
  else none

/-- Matcher for `re.findall(r'>>> (.*?)(?=>>>|\Z)', s, re.DOTALL)`: the
4-character prompt `">>> "` followed by a lazy capture up to the next `">>>"`
or the end of the string (the lookahead consumes nothing). -/
def tryPromptBlock (s : List Char) : Option (List Char × List Char) :=
  if ">>> ".data.isPrefixOf s then
    let t := s.drop 4
    (List.range (t.length + 1)).findSome? fun k =>
      let rest := t.drop k
      if ">>>".data.isPrefixOf rest || rest.isEmpty then some (t.take k, rest)
      else none
  else none

/-- The per-block prompt cleanup loop (api.py lines 844-857): keep stripped
lines starting with `'>>>'` or `'...'` (dropping their first 4 characters),
skip everything else, and join; a block with no kept lines yields nothing. -/
def processPromptBlock (block : List Char) : Option (List Char) :=
  let lines := pySplitlines block
  let code_lines := lines.filterMap fun line =>
    let st := pyStrip line
    if ">>>".data.isPrefixOf st then some (st.drop 4)
    else if "...".data.isPrefixOf st then some (st.drop 4)
    else none
  if code_lines.isEmpty then none else some (joinSep "\n".data code_lines)

/-- One line of `r'(?: {4,}[^\n]+)'`: at least 4 leading spaces and at least
one further non-newline character. -/
def qualifiesIndented (seg : List Char) : Bool :=
  (seg.take 4).all (fun c => c == ' ') && decide (5 ≤ seg.length)

/-- Step of `groupRuns`: extend the current run of matching elements or flush
it into the accumulated blocks. -/
def groupStep (p : α → Bool) (x : α) (st : List α × List (List α)) :
    List α × List (List α) :=
  if p x then (x :: st.1, st.2)
  else ([], if st.1.isEmpty then st.2 else st.1 :: st.2)

/-- Maximal runs of consecutive elements satisfying `p`, in order. -/
def groupRuns (p : α → Bool) (l : List α) : List (List α) :=
  let st := l.foldr (groupStep p) ([], [])
  if st.1.isEmpty then st.2 else st.1 :: st.2

/-- `re.findall(r'(?:^|\n)( {4,}[^\n]+(?:\n {4,}[^\n]+)*)', s)` (api.py line
860): since `^` only matches at the start (no `re.MULTILINE`) and the `\n` of
the prefix group is consumed, the captures are exactly the maximal runs of
consecutive qualifying raw lines, rejoined with `'\n'`. -/
def indented_blocks (l : List Char) : List (List Char) :=
  (groupRuns qualifiesIndented (splitOnNl l)).map (joinSep "\n".data)

/-- The keywords of `r'\bdef\b|\bclass\b|\bif\b|\bfor\b|\bimport\b|\bwith\b'`. -/
def pyKeywords : List (List Char) :=
  ["def".data, "class".data, "if".data, "for".data, "import".data, "with".data]

/-- Word-boundary match of `kw` at the start of `s`, `prev` being the
character preceding `s` (if any). -/
def kwHitAt (kw : List Char) (prev : Option Char) (s : List Char) : Bool :=
  kw.isPrefixOf s &&
    (match prev with
     | none => true
     | some pc => !isWordChar pc) &&
    (match s.drop kw.length with
     | [] => true
     | d :: _ => !isWordChar d)

/-- Scan for any keyword occurrence with word boundaries (`re.search`). -/
def kwSearch (prev : Option Char) : List Char → Bool
  | [] => false
  | c :: t => pyKeywords.any (fun kw => kwHitAt kw prev (c :: t)) || kwSearch (some c) t

/-- `re.search(r'\bdef\b|\bclass\b|\bif\b|\bfor\b|\bimport\b|\bwith\b', code)`
as a Boolean. -/
def hasPyKeyword (code : List Char) : Bool :=
  kwSearch none code

/-- The indented-block loop (api.py lines 861-869).  For each block:
split it into lines, guard on `if lines:`, compute the common indent as
`min(...)` over the lines with nonempty `strip()` — raising `ValueError`
(modelled as `.error`) when none exist — dedent, and keep the block when it
contains a Python keyword. -/
def processIndentedBlocks : List (List Char) → Except String (List (List Char))
  | [] => .ok []
  | b :: bs =>
    let lines := pySplitlines b
    if lines.isEmpty then processIndentedBlocks bs
    else
      let indents := (lines.filter (fun ln => !(pyStrip ln).isEmpty)).map pyLstripLen
      match indents with
      | [] => .error "ValueError: min() arg is an empty sequence"
      | x :: xs =>
        let common_indent := xs.foldl Nat.min x
        let code := joinSep "\n".data (lines.map (fun ln => ln.drop common_indent))
        if hasPyKeyword code then (processIndentedBlocks bs).map (fun es => code :: es)
        else processIndentedBlocks bs

/-- `extract_code_blocks` (api.py lines 830-871): empty input yields `[]`;
otherwise the fenced, prompt and indented passes run in order and their
results are concatenated.  A `ValueError` escaping the indented loop is the
`.error` case. -/
def extract_code_blocks (docstring : String) : Except String (List String) :=
  let l := docstring.data
  if l.isEmpty then .ok []
  else
    let fenced := findAll tryFencedPython l
    let prompt_examples := (findAll tryPromptBlock l).filterMap processPromptBlock
    match processIndentedBlocks (indented_blocks l) with
    | .error e => .error e
    | .ok ind => .ok ((fenced ++ prompt_examples ++ ind).map List.asString)

example : extract_code_blocks ">>> x = 1\n>>> y = 2\n" = .ok [] := by rfl
example : extract_code_blocks "      " = .error "ValueError: min() arg is an empty sequence" := by rfl
example : extract_code_blocks "" = .ok [] := by rfl
example : extract_code_blocks ">>> def f():\n...     return 1\n" = .ok ["    return 1"] := by rfl
example : extract_code_blocks "text\n    import os\n    os.getcwd()\nmore" = .ok ["import os\nos.getcwd()"] := by rfl
example : extract_code_blocks "```python\nimport os\n```" = .ok ["import os"] := by rfl

/-! ## The `search_pypi` request handler shell (api.py lines 320-334, 549-563)

The query parameters are read and coerced before the `try:` block that starts
at line 335.  `int(...)` on a malformed value therefore raises a `ValueError`
that no handler catches, and Flask turns an uncaught exception into an HTTP
500 response.  Everything inside the `try:` block is abstracted as an
`Except`-valued upstream computation: any exception raised there is caught at
line 549 and answered with a 200 JSON error envelope. -/

/-- Worker for `pyInt`: digits with single underscores strictly between
digits, `prevDigit` tracking whether the previous character was a digit. -/
def digitsValGo (acc : Nat) (prevDigit : Bool) : List Char → Option Nat
  | [] => if prevDigit then some acc else none
  | c :: t =>
    if c.isDigit then digitsValGo (acc * 10 + (c.toNat - 48)) true t
    else if c == '_' && prevDigit then digitsValGo acc false t
    else none

/-- Python `int(str)`: surrounding whitespace stripped, optional sign, decimal
digits (with underscore separators); `none` models a raised `ValueError`. -/
def pyInt (s : String) : Option Int :=
  match pyStrip s.data with
  | '+' :: r => (digitsValGo 0 false r).map Int.ofNat
  | '-' :: r => (digitsValGo 0 false r).map (fun n => -(Int.ofNat n))
  | r => (digitsValGo 0 false r).map Int.ofNat

/-- The query string of a `/pypi/search` request (`none` = parameter absent). -/
structure SearchRequest where
  q : Option String
  page : Option String
  per_page : Option String
  sort_by : Option String
  exact_match : Option String

/-- Outcome of running the Flask view: a response built by the handler, or an
exception that escaped it. -/
inductive HandlerOutcome where
  | response (httpStatus : Nat) (bodyStatus : String) (packages : List String)
  | uncaught (exn : String)
deriving DecidableEq

/-- The HTTP status the client sees: Flask maps an uncaught exception to 500. -/
def httpStatusOf : HandlerOutcome → Nat
  | .response s _ _ => s
  | .uncaught _ => 500

/-- The `search_pypi` view (api.py lines 320-334 plus the outer
`try`/`except` at 335/549-563).  Parameter coercion happens before the `try`
block; `upstream` abstracts the entire body of the `try` block, whose
exceptions are all caught at line 549 and converted into a 200 error
envelope with an empty package list. -/
def search_pypi (req : SearchRequest) (upstream : Except String (List String)) :
    HandlerOutcome :=
  let query := pyLower (req.q.getD "").data
  match pyInt (req.page.getD "1") with
  | none => .uncaught "ValueError"
  | some _page =>
    match pyInt (req.per_page.getD "20") with
    | none => .uncaught "ValueError"
    | some _per_page =>
      if query.isEmpty then .response 400 "error" []
      else
        match upstream with
        | .ok pkgs => .response 200 "success" pkgs
        | .error _ => .response 200 "error" []

/-! ## The examples cache check (api.py lines 643-652, 808-820)

`get_library_examples` reads the per-library cache file; a parseable entry is
served iff its `timestamp` exceeds `time.time() - 7*24*60*60`, and in every
other case (missing file, unreadable file, stale entry) the endpoint
regenerates and writes the fresh result back with `open(cache_file, 'w')` —
an overwrite, never a prior delete. -/

/-- A parsed cache entry (only the freshness-relevant field is modelled). -/
structure CacheEntry where
  timestamp : Int
deriving DecidableEq

/-- File-system operations the endpoint can perform on the cache file. -/
inductive FileOp where
  | write (e : CacheEntry)
  | delete
deriving DecidableEq

/-- The staleness window `7 * 24 * 60 * 60` (api.py line 651). -/
def SEVEN_DAYS : Int := 7 * 24 * 60 * 60

/-- The cache phase of `get_library_examples`: the input is the state of the
cache file (`none` = missing, `.error` = unreadable/unparseable) and the
current time.  Returns (served-from-cache?, entry answered, file operations
performed).  The regeneration branch writes an entry stamped `now` (api.py
lines 808-820). -/
def examples_cache_step (cacheFile : Option (Except String CacheEntry))
    (now : Int) : Bool × CacheEntry × List FileOp :=
  match cacheFile with
  | some (.ok e) =>
    if e.timestamp > now - SEVEN_DAYS then (true, e, [])
    else (false, ⟨now⟩, [.write ⟨now⟩])
  | some (.error _) => (false, ⟨now⟩, [.write ⟨now⟩])
  | none => (false, ⟨now⟩, [.write ⟨now⟩])

/-! ## Member enumeration in `get_library_info` (api.py lines 104-164)

A loaded module is modelled as its `inspect.getmembers` listing: a list of
(name, object) pairs, each object being a class (with its function members),
a function, or any other value (with a flag recording whether `str(obj)`
succeeded, since that conversion is guarded by `try`/`except: pass`). -/

/-- A member of a module as seen by the enumeration loop. -/
inductive PyMember where
  | cls (doc : Option String) (methods : List (String × Option String))
  | func (doc : Option String)
  | other (strOk : Bool) (typeName : String) (strVal : String)

/-- `inspect.getdoc(obj) or "No documentation available"`: Python `or` also
replaces an empty docstring. -/
def pyOrDefaultDoc (d : Option String) : String :=
  match d with
  | some s => if s.data.isEmpty then "No documentation available" else s
  | none => "No documentation available"

/-- A `class_info` record (api.py lines 120-124). -/
structure ClassInfo where
  name : String
  docstring : String
  methods : List (String × String)
deriving DecidableEq

/-- A `func_info` record (api.py lines 140-143). -/
structure FuncInfo where
  name : String
  docstring : String
deriving DecidableEq

/-- A `constant_info` record (api.py lines 149-153). -/
structure ConstInfo where
  name : String
  typeName : String
  value : String
deriving DecidableEq

/-- `str(obj) if len(str(obj)) < 1000 else str(obj)[:1000] + "..."`. -/
def truncVal (s : String) : String :=
  if s.data.length < 1000 then s else (s.data.take 1000).asString ++ "..."

/-- The member classification loop of `get_library_info` (api.py lines
109-156): skip names starting with `'_'`, build `ClassInfo` (with methods
filtered the same way), `FuncInfo`, or `ConstInfo` (dropped silently when
`str(obj)` raised). -/
def get_library_info_members :
    List (String × PyMember) → List ClassInfo × List FuncInfo × List ConstInfo
  | [] => ([], [], [])
  | (name, obj) :: rest =>
    let r := get_library_info_members rest
    if startsWithUnderscore name then r
    else
      match obj with
      | .cls doc methods =>
        let mi := (methods.filter (fun m => !startsWithUnderscore m.1)).map
          (fun m => (m.1, format_docstring (pyOrDefaultDoc m.2)))
        (⟨name, format_docstring (pyOrDefaultDoc doc), mi⟩ :: r.1, r.2.1, r.2.2)
      | .func doc =>
        (r.1, ⟨name, format_docstring (pyOrDefaultDoc doc)⟩ :: r.2.1, r.2.2)
      | .other ok ty v =>
        (r.1, r.2.1, if ok then ⟨name, ty, truncVal v⟩ :: r.2.2 else r.2.2)

/-- All member names appearing anywhere in the introspection output:
top-level class, function and constant names, and every class's method
names. -/
def infoNames (t : List ClassInfo × List FuncInfo × List ConstInfo) :
    List String :=
  t.1.map (·.name) ++ (t.1.map (fun c => c.methods.map (·.1))).flatten ++
    t.2.1.map (·.name) ++ t.2.2.map (·.name)

/-! ## The Source Locator fallback (api.py lines 246-297)

When `inspect.getsource` fails, `get_source_code` answers with a composite
string built by successive `+=` steps.  The runtime facts about the target
object are modelled as explicit inputs: the module's `__file__` (absent when
the module declares none), the object's type name, `inspect.isbuiltin`, class
status together with the declaring `__module__` (`none` when the attribute is
missing), the docstring as returned by `inspect.getdoc`, and the value of
`repr(obj)` (`none` when `repr` raised). -/

/-- The `module_info` accumulator (api.py lines 247-269). -/
def module_info_str (filePath : Option String) (typeName : String)
    (isBuiltin : Bool) (isClass : Bool) (classModule : Option String) : String :=
  let m := ""
  let m := m ++ (match filePath with
    | some fp => "Module file path: " ++ fp ++ "\n\n"
    | none => "")
  let m := m ++ ("Object type: " ++ typeName ++ "\n")
  let m := m ++ (if isBuiltin then "This is a built-in function or method written in C.\n" else "")
  let m := m ++ (if isClass then
      match classModule with
      | none => "This is a built-in class written in C.\n"
      | some md =>
        if md = "builtins" then "This is a built-in class written in C.\n"
        else "Class defined in module: " ++ md ++ "\n"
    else "")
  m

/-- The fallback `source_code` string (api.py lines 279-297): the
not-available header plus `module_info`, then the formatted docstring when
`inspect.getdoc` is truthy, then the `repr` when it is under 1000
characters. -/
def fallback_source_code (filePath : Option String) (typeName : String)
    (isBuiltin : Bool) (isClass : Bool) (classModule : Option String)
    (doc : Option String) (reprStr : Option String) : String :=
  let sc := "Source code not available (possibly built-in or binary extension)\n\n" ++
    module_info_str filePath typeName isBuiltin isClass classModule
  let sc := sc ++ (match doc with
    | some d => if d.data.isEmpty then "" else "\nDocumentation:\n" ++ format_docstring d
    | none => "")
  let sc := sc ++ (match reprStr with
    | some r => if r.data.length < 1000 then "\n\nObject representation:\n" ++ r else ""
    | none => "")
  sc

/-- The fallback composition as the specification words it: an ordered list
of optional parts, each empty exactly when its precondition fails — file
path line, object-type line, native-implementation note, declaring-module
line (or built-in-class note) for classes, formatted docstring, textual
representation. -/
def fallbackParts (filePath : Option String) (typeName : String)
    (isBuiltin : Bool) (isClass : Bool) (classModule : Option String)
    (doc : Option String) (reprStr : Option String) : List String :=
  [ (match filePath with
     | some fp => "Module file path: " ++ fp ++ "\n\n"
     | none => ""),
    "Object type: " ++ typeName ++ "\n",
    (if isBuiltin then "This is a built-in function or method written in C.\n" else ""),
    (if isClass then
      match classModule with
      | none => "This is a built-in class written in C.\n"
      | some md =>
        if md = "builtins" then "This is a built-in class written in C.\n"
        else "Class defined in module: " ++ md ++ "\n"
     else ""),
    (match doc with
     | some d => if d.data.isEmpty then "" else "\nDocumentation:\n" ++ format_docstring d
     | none => ""),
    (match reprStr with
     | some r => if r.data.length < 1000 then "\n\nObject representation:\n" ++ r else ""
     | none => "") ]

/-! ## `extract_relevant_code` (api.py lines 873-917) -/

/-- `extract_relevant_code` (api.py lines 873-917): find the lines importing
the library (or, when none exist, the lines using `"<lib>."`), take the
window `lines[max(0, i-5) : min(len(lines), i+30)]` around each, join the
windows with blank lines, truncate at 2000 characters with a marker, and
return `none` (Python `None`) when no line matches. -/
def extract_relevant_code (file_content library_name : String) : Option String :=
  let lines := pySplitlines file_content.data
  let lib := library_name.data
  let import_patterns : List (List Char) :=
    ["import ".data ++ lib, "from ".data ++ lib ++ " import".data]
  let import_lines :=
    (lines.enum.filter (fun il => import_patterns.any (fun p => containsSub il.2 p))).map
      (fun il => il.1)
  let import_lines2 :=
    if import_lines.isEmpty then
      (lines.enum.filter (fun il => containsSub il.2 (lib ++ ".".data))).map (fun il => il.1)
    else import_lines
  if import_lines2.isEmpty then none
  else
    let relevant_snippets := import_lines2.map (fun i =>
      let start_line := i - 5
      let end_line := min lines.length (i + 30)
      joinSep "\n".data ((lines.drop start_line).take (end_line - start_line)))
    let combined := joinSep "\n\n".data relevant_snippets
    let combined2 :=
      if 2000 < combined.length then combined.take 2000 ++ "\n# ... (truncated) ...".data
      else combined
    some combined2.asString

/-- The matching-line indices as the specification words them: all lines with
an import of the library, or — only when no import lines exist — all lines
containing `"<library>."`. -/
def matching_line_idxs (lines : List (List Char)) (lib : List Char) : List Nat :=
  let importIdxs :=
    (lines.enum.filter (fun il =>
      containsSub il.2 ("import ".data ++ lib) ||
        containsSub il.2 ("from ".data ++ lib ++ " import".data))).map (fun il => il.1)
  if importIdxs.isEmpty then
    (lines.enum.filter (fun il => containsSub il.2 (lib ++ ".".data))).map (fun il => il.1)
  else importIdxs

/-- The window around matching line `i`, per the specification. -/
def relevant_window (lines : List (List Char)) (i : Nat) : List Char :=
  joinSep "\n".data ((lines.drop (i - 5)).take (min lines.length (i + 30) - (i - 5)))

/-- Truncation of the combined snippet, per the specification. -/
def truncate_2000 (l : List Char) : List Char :=
  if 2000 < l.length then l.take 2000 ++ "\n# ... (truncated) ...".data else l

example : relevance "flask" "Flask" = 100 := by decide
example : relevance "re" "requests" = 90 := by decide
example : relevance "abc" "xyzabc" = 87 := by decide
example : format_docstring "" = "No documentation available" := by decide
example : format_docstring " " = "" := by decide
example : format_docstring "ab versionadded:: 1.0 x" = "[Added in version 1.0]: x" := by decide

/-! ## Helper lemmas -/

/-- `pyFind` on equal lists matches immediately at index 0. -/
theorem pyFind_self (l : List Char) : pyFind l l = some 0 := by
  cases l with
  | nil => rfl
  | cons c r =>
    have h : (c :: r).isPrefixOf (c :: r) = true :=
      List.isPrefixOf_iff_prefix.mpr (List.prefix_refl _)
    simp [pyFind, pyFindAux, h]

/-- No matcher in sight: `try_` fails on every suffix of `s`. -/
def noMatchB (try_ : List Char → Option (List Char × List Char))
    (s : List Char) : Bool :=
  s.tails.all (fun t => (try_ t).isNone)

/-- A substitution whose matcher fails on every suffix leaves the string
unchanged (for any amount of fuel). -/
theorem substFuel_eq_self (try_ : List Char → Option (List Char × List Char)) :
    ∀ (fuel : Nat) (s : List Char),
      (∀ t, t <:+ s → try_ t = none) → substFuel try_ fuel s = s := by
  intro fuel
  induction fuel with
  | zero => intro s _; rfl
  | succ n ih =>
    intro s h
    have h0 : try_ s = none := h s (List.suffix_refl s)
    cases s with
    | nil => simp [substFuel, h0]
    | cons c t =>
      simp only [substFuel, h0]
      rw [ih t (fun u hu => h u (hu.trans (List.suffix_cons c t)))]

/-- Unpack `noMatchB` to the matcher failing on every suffix. -/
theorem noMatchB_none (try_ : List Char → Option (List Char × List Char))
    (s : List Char) (h : noMatchB try_ s = true) :
    ∀ t, t <:+ s → try_ t = none := by
  intro t ht
  have hmem : t ∈ s.tails := (List.mem_tails t s).mpr ht
  have := (List.all_eq_true.mp h) t hmem
  simpa [Option.isNone_iff_eq_none] using this

/-- `re.sub` is the identity when its pattern matches nowhere. -/
theorem substG_eq_self (try_ : List Char → Option (List Char × List Char))
    (s : List Char) (h : noMatchB try_ s = true) : substG try_ s = s :=
  substFuel_eq_self try_ s.length s (noMatchB_none try_ s h)

/-- "Already-clean" docstrings: nonempty, stripped, and matched by none of the
ten substitution patterns of `format_docstring`. -/
def clean (s : String) : Bool :=
  !s.data.isEmpty && decide (pyStrip s.data = s.data) &&
  noMatchB tryCodeBlock s.data &&
  noMatchB (tryRef ":class:`".data true) s.data &&
  noMatchB (tryRef ":func:`".data true) s.data &&
  noMatchB (tryRef ":mimetype:`".data false) s.data &&
  noMatchB (tryRef ":data:`".data false) s.data &&
  noMatchB (tryRef ":ref:`".data false) s.data &&
  noMatchB (tryVersion vcLit "\n[Changed in version ".data) s.data &&
  noMatchB (tryVersion vaLit "\n[Added in version ".data) s.data &&
  noMatchB (tryVersion vdLit "\n[Deprecated in version ".data) s.data &&
  noMatchB tryCollapse s.data

/-- Method lists filtered on the privacy marker contain no underscore name. -/
theorem filtered_methods_private_free (ms : List (String × Option String)) :
    (ms.filter (fun m => !startsWithUnderscore m.1)).all
      (fun m => !startsWithUnderscore m.1) = true := by
  rw [List.all_eq_true]
  intro x hx
  exact (List.mem_filter.mp hx).2

/-- Every name in the introspection output survives a `startswith('_')`
filter. -/
theorem infoNames_all_public (members : List (String × PyMember)) :
    (infoNames (get_library_info_members members)).all
      (fun n => !startsWithUnderscore n) = true := by
  induction members with
  | nil => rfl
  | cons hd tl ih =>
    obtain ⟨name, obj⟩ := hd
    by_cases hu : startsWithUnderscore name
    · simpa [get_library_info_members, hu] using ih
    · cases obj with
      | cls doc methods =>
        simp only [infoNames, List.all_append, Bool.and_eq_true] at ih
        obtain ⟨⟨⟨ih1, ih2⟩, ih3⟩, ih4⟩ := ih
        have hm := filtered_methods_private_free methods
        simp only [get_library_info_members, hu, if_neg, Bool.false_eq_true,
          if_false, infoNames, List.map_cons, List.flatten_cons, List.all_append,
          List.all_cons, List.map_map, List.all_map, Bool.and_eq_true]
        refine ⟨⟨⟨⟨by simp [hu], ih1⟩, ⟨?_, ih2⟩⟩, ih3⟩, ih4⟩
        simp [Function.comp, hm]
      | func doc =>
        simp only [infoNames, List.all_append, Bool.and_eq_true] at ih
        obtain ⟨⟨⟨ih1, ih2⟩, ih3⟩, ih4⟩ := ih
        simp only [get_library_info_members, hu, if_neg, Bool.false_eq_true,
          if_false, infoNames, List.map_cons, List.all_append, List.all_cons,
          Bool.and_eq_true]
        exact ⟨⟨⟨ih1, ih2⟩, ⟨by simp [hu], ih3⟩⟩, ih4⟩
      | other ok ty v =>
        cases ok with
        | false => simpa [get_library_info_members, hu] using ih
        | true =>
          simp only [infoNames, List.all_append, Bool.and_eq_true] at ih
          obtain ⟨⟨⟨ih1, ih2⟩, ih3⟩, ih4⟩ := ih
          simp only [get_library_info_members, hu, if_neg, Bool.false_eq_true,
            if_false, if_true, infoNames, List.map_cons, List.all_append,
            List.all_cons, Bool.and_eq_true]
          exact ⟨⟨⟨ih1, ih2⟩, ih3⟩, ⟨by simp [hu], ih4⟩⟩

/-! ## Claim theorems -/

/-- C1 (counterexample): the claim asserts that query `"re"` against name
`"requests"` scores 88, but the code's rule `90 - min(offset, 80)` at offset
0 yields 90, not 88. -/
theorem relevance_re_requests_counterexample :
    relevance "re" "requests" = 90 ∧ relevance "re" "requests" ≠ 88 :=
  ⟨by decide, by decide⟩

/-- C1 (amended): the relevance score is exactly 100 when the query equals
the package name case-insensitively, exactly `90 - min(offset, 80)` when the
lowercased query occurs in the lowercased name at first-occurrence position
`offset` without being an exact match, and exactly 50 otherwise; on the test
vectors, "flask"/"Flask" scores 100, "re"/"requests" scores 90 (offset 0),
and "abc"/"xyzabc" scores 87 (offset 3). -/
theorem relevance_scoring_amended (q n : String) :
    (pyLower q.data = pyLower n.data → relevance q n = 100) ∧
    (pyLower q.data ≠ pyLower n.data →
      ∀ off, pyFind (pyLower q.data) (pyLower n.data) = some off →
        relevance q n = 90 - min off 80) ∧
    (pyFind (pyLower q.data) (pyLower n.data) = none → relevance q n = 50) ∧
    relevance "flask" "Flask" = 100 ∧ relevance "re" "requests" = 90 ∧
    relevance "abc" "xyzabc" = 87 := by
  refine ⟨?_, ?_, ?_, by decide, by decide, by decide⟩
  · intro h; simp [relevance, h]
  · intro hne off hoff; simp [relevance, hne, hoff]
  · intro hnone
    have hne : pyLower q.data ≠ pyLower n.data := by
      intro h
      rw [h, pyFind_self] at hnone
      exact Option.noConfusion hnone
    simp [relevance, hne, hnone]

/-- C1 (witness): instancing the amended scoring rule at the substring case
"py" in "numpy" (first occurrence at offset 3). -/
theorem relevance_scoring_amended_witness :
    pyFind (pyLower "py".data) (pyLower "numpy".data) = some 3 ∧
    relevance "py" "numpy" = 90 - min 3 80 :=
  ⟨by decide, (relevance_scoring_amended "py" "numpy").2.1 (by decide) 3 (by decide)⟩

/-- C2: the claim says the PyPI search endpoint never answers 500, but
`int(request.args.get('page', '1'))` runs before the `try:` block, so a
request with `page=abc` raises an uncaught `ValueError` and Flask answers
HTTP 500; with well-formed paging parameters, an upstream failure is indeed
converted into a 200 error envelope with an empty result list. -/
theorem search_pypi_malformed_page_uncaught :
    search_pypi ⟨some "flask", some "abc", none, none, none⟩ (.ok []) =
      .uncaught "ValueError" ∧
    httpStatusOf (search_pypi ⟨some "flask", some "abc", none, none, none⟩ (.ok [])) = 500 ∧
    search_pypi ⟨some "flask", none, none, none, none⟩ (.error "network down") =
      .response 200 "error" [] :=
  ⟨by decide, by decide, by decide⟩

/-- C3: the claim says the first prompted command line of each `>>>` run is
accumulated into the snippet, but `re.findall(r'>>> (.*?)(?=>>>|\Z)', ...)`
already strips the prompt, so inside the cleanup loop the command line starts
with neither `'>>>'` nor `'...'` and is discarded as output: a docstring of
two plain prompt commands yields no snippet at all. -/
theorem extract_code_blocks_prompt_line_discarded :
    extract_code_blocks ">>> x = 1\n>>> y = 2\n" = .ok [] ∧
    extract_code_blocks ">>> x = 1\n" = .ok [] :=
  ⟨rfl, rfl⟩

/-- C4: the claim says `extract_code_blocks` never raises, but an indented
block consisting only of whitespace (here six spaces) makes the
`min(... for line in lines if line.strip())` generator empty, raising
`ValueError`. -/
theorem extract_code_blocks_raises_on_blank_indent :
    extract_code_blocks "      " = .error "ValueError: min() arg is an empty sequence" :=
  rfl

/-- C5 (counterexample): `format_docstring` is not idempotent on every
string: `format_docstring " " = ""` (stripped to empty), while a second
application hits the empty-input guard and returns
"No documentation available". -/
theorem format_docstring_not_idempotent :
    format_docstring (format_docstring " ") ≠ format_docstring " " := by decide

/-- C5 (amended): `format_docstring` is idempotent on already-clean input:
a nonempty, stripped string on which none of the ten substitution patterns
matches is a fixed point, so a second application changes nothing. -/
theorem format_docstring_idempotent_on_clean (s : String) (h : clean s = true) :
    format_docstring s = s ∧
    format_docstring (format_docstring s) = format_docstring s := by
  have hfix : format_docstring s = s := by
    simp only [clean, Bool.and_eq_true] at h
    obtain ⟨⟨⟨⟨⟨⟨⟨⟨⟨⟨⟨hne, hstrip⟩, h1⟩, h2⟩, h3⟩, h4⟩, h5⟩, h6⟩, h7⟩, h8⟩, h9⟩, h10⟩ := h
    have hne' : s.data.isEmpty = false := by simpa using hne
    simp only [format_docstring, format_docstring_list, hne', Bool.false_eq_true,
      if_false]
    rw [substG_eq_self _ _ h1, substG_eq_self _ _ h2, substG_eq_self _ _ h3,
      substG_eq_self _ _ h4, substG_eq_self _ _ h5, substG_eq_self _ _ h6,
      substG_eq_self _ _ h7, substG_eq_self _ _ h8, substG_eq_self _ _ h9,
      substG_eq_self _ _ h10, of_decide_eq_true hstrip]
    rfl
  refine ⟨hfix, ?_⟩
  rw [hfix]
  exact hfix

/-- C5 (witness): the clean string "hello world" is a fixed point and a
second application changes nothing. -/
theorem format_docstring_idempotent_on_clean_witness :
    clean "hello world" = true ∧
    format_docstring (format_docstring "hello world") = format_docstring "hello world" :=
  ⟨by decide, (format_docstring_idempotent_on_clean "hello world" (by decide)).2⟩

/-- C6: a cache entry stamped exactly `now - 604800` is stale — the endpoint
regenerates and overwrites the file — while one stamped `now - 604799` is
fresh and served from cache; moreover the endpoint only ever writes the cache
file, it never deletes it. -/
theorem examples_cache_freshness_boundary (now : Int) :
    examples_cache_step (some (.ok ⟨now - 604800⟩)) now = (false, ⟨now⟩, [.write ⟨now⟩]) ∧
    examples_cache_step (some (.ok ⟨now - 604799⟩)) now = (true, ⟨now - 604799⟩, []) ∧
    ∀ c, (examples_cache_step c now).2.2 = [] ∨
      (examples_cache_step c now).2.2 = [FileOp.write ⟨now⟩] := by
  refine ⟨?_, ?_, ?_⟩
  · have h : ¬(now - 604800 > now - SEVEN_DAYS) := by
      simp only [SEVEN_DAYS]; omega
    simp [examples_cache_step, h]
  · have h : now - 604799 > now - SEVEN_DAYS := by
      simp only [SEVEN_DAYS]; omega
    simp [examples_cache_step, h]
  · intro c
    match c with
    | none => exact Or.inr rfl
    | some (.error e) => exact Or.inr rfl
    | some (.ok e) =>
      by_cases h : e.timestamp > now - SEVEN_DAYS
      · exact Or.inl (by simp [examples_cache_step, h])
      · exact Or.inr (by simp [examples_cache_step, h])

/-- C7: the Source Locator's fallback string is exactly the not-available
header followed by the six optional parts in the claimed order — module file
path, object type, native-implementation note, class module line, formatted
docstring, object representation — each present only when its precondition
holds. -/
theorem fallback_source_code_ordering (filePath : Option String)
    (typeName : String) (isBuiltin isClass : Bool)
    (classModule doc reprStr : Option String) :
    fallback_source_code filePath typeName isBuiltin isClass classModule doc reprStr =
      "Source code not available (possibly built-in or binary extension)\n\n" ++
        String.join (fallbackParts filePath typeName isBuiltin isClass classModule doc reprStr) := by
  simp only [fallback_source_code, module_info_str, fallbackParts, String.join,
    List.foldl_cons, List.foldl_nil]
  simp only [String.append_assoc]

/-- C8: `extract_relevant_code` returns exactly the specification's
composition — the matching line indices (imports first, attribute uses only
as a fallback), the 5-before/30-after windows, blank-line-separated in match
order, truncated at 2000 characters with a marker — and it is the none-found
sentinel exactly when no line matches. -/
theorem extract_relevant_code_spec_eq (c l : String) :
    extract_relevant_code c l =
      (if (matching_line_idxs (pySplitlines c.data) l.data).isEmpty then none
       else some ((truncate_2000 (joinSep "\n\n".data
         ((matching_line_idxs (pySplitlines c.data) l.data).map
           (relevant_window (pySplitlines c.data))))).asString)) ∧
    (extract_relevant_code c l = none ↔
      matching_line_idxs (pySplitlines c.data) l.data = []) := by
  have heq : extract_relevant_code c l =
      (if (matching_line_idxs (pySplitlines c.data) l.data).isEmpty then none
       else some ((truncate_2000 (joinSep "\n\n".data
         ((matching_line_idxs (pySplitlines c.data) l.data).map
           (relevant_window (pySplitlines c.data))))).asString)) := by
    simp only [extract_relevant_code, matching_line_idxs, truncate_2000,
      List.any_cons, List.any_nil, Bool.or_false]
    rfl
  refine ⟨heq, ?_⟩
  rw [heq]
  by_cases h : (matching_line_idxs (pySplitlines c.data) l.data).isEmpty
  · rw [if_pos h]
    simp [List.isEmpty_iff.mp h]
  · rw [if_neg h]
    have hne : matching_line_idxs (pySplitlines c.data) l.data ≠ [] := by
      intro hh
      exact h (by simp [hh])
    simp [hne]

/-- C9: no member whose name begins with an underscore ever appears in the
introspection output — not among the top-level classes, functions or
constants, and not in any class's method list. -/
theorem introspection_no_private_names (members : List (String × PyMember))
    (n : String) (h : n ∈ infoNames (get_library_info_members members)) :
    startsWithUnderscore n = false := by
  have hall := List.all_eq_true.mp (infoNames_all_public members) n h
  simpa using hall

/-- C9 (witness): a module with a private and a public function exposes the
public one, whose name the theorem certifies as underscore-free. -/
theorem introspection_no_private_names_witness :
    "foo" ∈ infoNames (get_library_info_members
      [("_hidden", .func none), ("foo", .func none)]) ∧
    startsWithUnderscore "foo" = false := by
  refine ⟨by decide, introspection_no_private_names
    [("_hidden", .func none), ("foo", .func none)] "foo" (by decide)⟩

/-- C10: the directive substitutions of `format_docstring` match any two
characters before the directive core, not only two literal dots: the input
"ab versionadded:: 1.0 x" contains no ".." at all, yet the two characters
"ab" and the annotation are rewritten to the bracketed version note. -/
theorem format_docstring_two_wildcard_chars :
    containsSub "ab versionadded:: 1.0 x".data "..".data = false ∧
    format_docstring "ab versionadded:: 1.0 x" = "[Added in version 1.0]: x" :=
  ⟨by decide, by decide⟩

end Libview
